import Mathlib

/-!
# Verification of the `python_ai_coding_standards` lookup/search library

This file gives a shallow embedding, in Lean 4, of the pure core of the
repository `python-ai-coding-standards`:

* the literal content tables of `standards/data.py`;
* the lookup and search API of `core/api.py`
  (`get_all_categories`, `get_standard`, `search_standards`);
* the AI-assistant helpers of `ai.py`
  (`get_example`, `suggest_improvements`, `get_project_structure`,
  `generate_standard_response`);
* the `categories` field of the CLI JSON export of `cli.py` together
  with a model of the JSON write/read round trip.

Python strings are modelled as Lean `String`s; Python dictionaries
(which iterate in insertion order) are modelled as association lists in
the literal insertion order of the source.  Python exceptions
(`ValueError`) are modelled with `Except String`, carrying the exact
message built by the source.  All definitions are executable.
-/

/-! ## String helpers (Python string semantics) -/

/-- Boolean prefix test on character lists. -/
def prefixOfB : List Char → List Char → Bool
  | [], _ => true
  | _ :: _, [] => false
  | a :: as, b :: bs => a == b && prefixOfB as bs

/-- Boolean substring test on character lists: the Python test `needle in hay`. -/
def infixOfB (needle : List Char) : List Char → Bool
  | [] => prefixOfB needle []
  | c :: rest => prefixOfB needle (c :: rest) || infixOfB needle rest

/-- the case-sensitive Python substring operator `needle in hay` on strings. -/
def strIn (needle hay : String) : Bool :=
  infixOfB needle.data hay.data

/-- The character list of `s.lower()` (ASCII case folding; all content in
the tables is ASCII apart from box-drawing characters, which both Python
and Lean leave unchanged). -/
def lowerL (s : String) : List Char :=
  s.data.map Char.toLower

/-- Python `s.lower()` as a string. -/
def lowerS (s : String) : String :=
  ⟨lowerL s⟩

/-- Whitespace stripped by Python `str.strip()`. -/
def isPySpace (c : Char) : Bool :=
  c == ' ' || c == '\t' || c == '\n' || c == '\r' || c == '\x0b' || c == '\x0c'

/-- Python `str.strip()`. -/
def pyStrip (s : String) : String :=
  ⟨((s.data.dropWhile isPySpace).reverse.dropWhile isPySpace).reverse⟩

/-- Helper for `pyLines`: accumulate the current line (reversed). -/
def splitNlAux : List Char → List Char → List String
  | [], cur => [⟨cur.reverse⟩]
  | c :: rest, cur =>
      if c == '\n' then ⟨cur.reverse⟩ :: splitNlAux rest []
      else splitNlAux rest (c :: cur)

/-- Python `s.split("\n")`. -/
def pyLines (s : String) : List String :=
  splitNlAux s.data []

/-! ## Data model

A Python example record is a free-form insertion-ordered mapping from
field names to values; values in the tables are either strings or (for
the `"commands"` field) a nested string-to-string mapping. -/

/-- A value stored in an example field: a string, or the nested
command table used by the `"commands"` field. -/
inductive Value where
  | str : String → Value
  | cmds : List (String × String) → Value
deriving DecidableEq, Repr

/-- An example record: insertion-ordered field/value pairs. -/
abbrev ExampleRec := List (String × Value)

/-- The content of one standards category (the `StandardInfo` TypedDict
of `core/api.py`). -/
structure StandardInfo where
  title : String
  description : String
  examples : List ExampleRec
  guidelines : List String
deriving DecidableEq, Repr

/-- A search result: `(category, matched_field, content)`. -/
abbrev SearchResult := String × String × String
/-- Literal table `PROJECT_STRUCTURE` from standards/data.py. -/
def PROJECT_STRUCTURE : StandardInfo where
  title := "Project Structure"
  description := "Recommended src-layout structure for Python projects"
  examples := [[("title", Value.str "Standard project layout"),
     ("code", Value.str "\nproject/\n├── src/\n│   └── package_name/\n│       ├── __init__.py\n│       ├── main.py\n│       ├── api/         # For web/API projects\n│       ├── core/        # Core functionality\n│       ├── db/          # Database related code\n│       ├── models/      # Data models\n│       └── schemas/     # Data validation schemas\n├── tests/\n│   ├── __init__.py\n│   └── test_*.py\n├── pyproject.toml\n├── README.md\n└── .gitignore\n")]]
  guidelines := ["Use src-layout for all projects",
    "Keep package name and directory structure aligned",
    "Organize related functionality into modules",
    "Use __init__.py files to define public API",
    "Separate tests from implementation code",
    "Use pyproject.toml for project configuration"]

/-- Literal table `DEVELOPMENT_TOOLS` from standards/data.py. -/
def DEVELOPMENT_TOOLS : StandardInfo where
  title := "Development Tools"
  description := "Recommended tools for Python development"
  examples := [[("title", Value.str "Common Hatch commands"),
     ("commands", Value.cmds [("tests", "hatch run test"), ("linting", "hatch run lint"), ("type_checking", "hatch run type"), ("formatting", "hatch run format"), ("development_server", "hatch run dev")])]]
  guidelines := ["Use Ruff for linting and formatting",
    "Use MyPy (with --strict) for static type checking",
    "Use Pytest for testing",
    "Use Hatch for project management",
    "Use Docker for containerization when needed",
    "Always use pyproject.toml for project configuration"]

/-- Literal table `OOP_PRINCIPLES` from standards/data.py. -/
def OOP_PRINCIPLES : StandardInfo where
  title := "Object-Oriented Programming Principles"
  description := "Best practices for OOP in Python"
  examples := [[("title", Value.str "Single Responsibility Principle (SRP)"),
     ("bad_example", Value.str "\n# Bad: Class doing too much\nclass UserManager:\n    def create_user(self) -> None: ...\n    def send_email(self) -> None: ...\n    def validate_password(self) -> None: ...\n"),
     ("good_example", Value.str "\n# Good: Separate responsibilities\nclass UserCreator:\n    def create_user(self) -> None: ...\n\nclass EmailService:\n    def send_email(self) -> None: ...\n\nclass PasswordValidator:\n    def validate_password(self) -> None: ...\n")],
    [("title", Value.str "Open/Closed Principle (OCP)"),
     ("bad_example", Value.str "\n# Bad: Modifying existing class\nclass PaymentProcessor:\n    def process_payment(self, payment_type: str) -> None:\n        if payment_type == \"credit\":\n            # process credit\n        elif payment_type == \"paypal\":\n            # process paypal\n"),
     ("good_example", Value.str "\n# Good: Extending through inheritance\nclass PaymentProcessor:\n    def process_payment(self) -> None: ...\n\nclass CreditCardProcessor(PaymentProcessor):\n    def process_payment(self) -> None: ...\n\nclass PayPalProcessor(PaymentProcessor):\n    def process_payment(self) -> None: ...\n")]]
  guidelines := ["Apply Single Responsibility Principle (SRP)",
    "Follow Open/Closed Principle (OCP)",
    "Use Interface Segregation where appropriate",
    "Apply Dependency Inversion for loosely coupled code",
    "Prefer Composition over Inheritance"]

/-- Literal table `DESIGN_PATTERNS` from standards/data.py. -/
def DESIGN_PATTERNS : StandardInfo where
  title := "Design Patterns"
  description := "Recommended design patterns for Python"
  examples := [[("title", Value.str "Factory Pattern"),
     ("code", Value.str "\nclass PaymentMethodFactory:\n    @staticmethod\n    def create_payment_method(method_type: str) -> PaymentMethod:\n        match method_type:\n            case \"credit\": return CreditCardPayment()\n            case \"paypal\": return PayPalPayment()\n            case _: raise ValueError(f\"Unknown payment method: \x7bmethod_type\x7d\")\n")],
    [("title", Value.str "Strategy Pattern"),
     ("code", Value.str "\nclass SortStrategy(Protocol):\n    def sort(self, data: list[int]) -> list[int]: ...\n\nclass QuickSort:\n    def sort(self, data: list[int]) -> list[int]: ...\n\nclass MergeSort:\n    def sort(self, data: list[int]) -> list[int]: ...\n")]]
  guidelines := ["Use Factory Pattern for object creation",
    "Apply Strategy Pattern for interchangeable algorithms",
    "Implement Observer Pattern for event handling",
    "Use Repository Pattern for data access",
    "Use patterns judiciously - don\x27t over-engineer"]

/-- Literal table `DATA_STRUCTURES` from standards/data.py. -/
def DATA_STRUCTURES : StandardInfo where
  title := "Pythonic Data Structures and Idioms"
  description := "Recommended data structures and Python idioms"
  examples := [[("title", Value.str "Appropriate data structures"),
     ("code", Value.str "\n# Sets for unique items\nunique_items: set[str] = \x7b\"apple\", \"banana\", \"apple\"\x7d\n\n# Dicts for key-value pairs\nuser_preferences: dict[str, Any] = \x7b\n    \"theme\": \"dark\",\n    \"notifications\": True\n\x7d\n\n# Lists for ordered collections\nitems: list[str] = [\"first\", \"second\", \"third\"]\n")],
    [("title", Value.str "Built-in types"),
     ("code", Value.str "\n# Use Enum for constants\nclass Color(Enum):\n    RED = \"red\"\n    GREEN = \"green\"\n    BLUE = \"blue\"\n\n# Use NamedTuple for simple data\nclass Point(NamedTuple):\n    x: float\n    y: float\n")]]
  guidelines := ["Choose appropriate data structures for the use case",
    "Use sets for collections of unique items",
    "Use dictionaries for lookups and mappings",
    "Use lists for ordered collections",
    "Leverage Enum for structured constants",
    "Use NamedTuple and dataclasses for simple data objects"]

/-- Literal table `MODERN_FEATURES` from standards/data.py. -/
def MODERN_FEATURES : StandardInfo where
  title := "Modern Python Features"
  description := "Recent Python features to leverage"
  examples := [[("title", Value.str "Data Classes"),
     ("code", Value.str "\n@dataclass(slots=True)\nclass User:\n    name: str\n    email: str\n    age: int\n    is_active: bool = True\n")],
    [("title", Value.str "Type Annotations and Generics"),
     ("code", Value.str "\ndef process_items[T](items: list[T]) -> list[T]:\n    return [item for item in items if item is not None]\n")],
    [("title", Value.str "Context Managers"),
     ("code", Value.str "\n@contextmanager\ndef managed_resource():\n    resource = acquire_resource()\n    try:\n        yield resource\n    finally:\n        release_resource(resource)\n")]]
  guidelines := ["Use dataclasses for data containers",
    "Apply type annotations with PEP 695 generics",
    "Leverage context managers for resource handling",
    "Use structural pattern matching for complex conditionals",
    "Take advantage of f-strings for string formatting"]

/-- Literal table `FUNCTIONAL_PROGRAMMING` from standards/data.py. -/
def FUNCTIONAL_PROGRAMMING : StandardInfo where
  title := "Functional Programming in Python"
  description := "Functional programming techniques for Python"
  examples := [[("title", Value.str "List Comprehensions"),
     ("code", Value.str "\nsquares = [x**2 for x in range(10) if x % 2 == 0]\n")],
    [("title", Value.str "Generator Expressions"),
     ("code", Value.str "\nlarge_squares = (x**2 for x in range(1000000) if x % 2 == 0)\n")],
    [("title", Value.str "Lambda Functions"),
     ("good_example", Value.str "\n# Good: Simple operations\nsquare = lambda x: x**2\n"),
     ("bad_example", Value.str "\n# Bad: Complex logic\nprocess_data = lambda x: (x**2 if x > 0 else 0) + (x if x < 10 else 10)\n")]]
  guidelines := ["Use list comprehensions over loops when appropriate",
    "Prefer generator expressions for large datasets",
    "Use lambda functions sparingly and only for simple operations",
    "Prefer comprehensions over map/filter/reduce",
    "Use higher-order functions to abstract patterns"]

/-- Literal table `ERROR_HANDLING` from standards/data.py. -/
def ERROR_HANDLING : StandardInfo where
  title := "Error Handling and Resource Management"
  description := "Best practices for handling errors and resources"
  examples := [[("title", Value.str "Custom exceptions"),
     ("code", Value.str "\nclass DomainError(Exception):\n    \"\"\"Base exception for all domain errors.\"\"\"\n    \nclass UserNotFoundError(DomainError):\n    \"\"\"Raised when a user cannot be found.\"\"\"\n    def __init__(self, user_id: str) -> None:\n        self.user_id = user_id\n        super().__init__(f\"User not found: \x7buser_id\x7d\")\n")],
    [("title", Value.str "Context managers for resources"),
     ("code", Value.str "\nwith open(\"file.txt\") as f:\n    data = f.read()\n    \n# Or custom context managers\n@contextmanager\ndef database_transaction():\n    transaction = db.begin()\n    try:\n        yield transaction\n        transaction.commit()\n    except Exception:\n        transaction.rollback()\n        raise\n")]]
  guidelines := ["Use specific exceptions rather than generic ones",
    "Create custom exception hierarchies for domain errors",
    "Always use context managers for resource management",
    "Catch only exceptions you can handle",
    "Include relevant error context in exception messages",
    "Document error conditions in function docstrings"]

/-- Literal table `TESTING` from standards/data.py. -/
def TESTING : StandardInfo where
  title := "Testing and Quality"
  description := "Best practices for testing Python code"
  examples := [[("title", Value.str "Unit test"),
     ("code", Value.str "\ndef test_user_creation():\n    user = User(name=\"Test\", email=\"test@example.com\")\n    assert user.name == \"Test\"\n    assert user.email == \"test@example.com\"\n    assert user.is_active is True  # Default value\n")],
    [("title", Value.str "Mocking dependencies"),
     ("code", Value.str "\n@patch(\"app.services.email_sender.send_email\")\ndef test_welcome_email(mock_send_email):\n    service = UserService()\n    service.create_user(\"Test\", \"test@example.com\")\n    \n    mock_send_email.assert_called_once_with(\n        to=\"test@example.com\",\n        subject=\"Welcome to Our Service\",\n        body=ANY,\n    )\n")]]
  guidelines := ["Write unit tests for all public methods",
    "Consider property-based testing for complex logic",
    "Always mock external dependencies",
    "Include type checking in CI/CD pipeline",
    "Aim for high test coverage on business logic",
    "Use fixtures to set up test data"]

/-- Literal table `ENVIRONMENT` from standards/data.py. -/
def ENVIRONMENT : StandardInfo where
  title := "Development Environment"
  description := "Recommended development environment setup"
  examples := []
  guidelines := ["Use Python 3.11+ for new projects",
    "Set up Docker for consistent development environments",
    "Use VS Code with Python extensions for a great IDE experience",
    "Manage virtual environments with Hatch or pixi",
    "Configure editor to use Ruff for linting and formatting"]

/-- Literal table `AI_GUIDELINES` from standards/data.py. -/
def AI_GUIDELINES : StandardInfo where
  title := "AI Assistance Guidelines"
  description := "Guidelines for AI assistants generating Python code"
  examples := []
  guidelines := ["Always include type hints in generated code",
    "Use modern Python features like PEP 695 generics",
    "Follow the project\x27s linting rules",
    "Maintain or improve test coverage",
    "Consider async/await patterns where appropriate",
    "Follow the src-layout project structure",
    "Use Hatch commands for development tasks",
    "Run ruff check and mypy --strict",
    "Document any non-obvious code decisions",
    "Consider performance implications of suggestions"]

/-- Literal table `PROJECT_TYPES` from standards/data.py. -/
def PROJECT_TYPES : StandardInfo where
  title := "Common Project Types"
  description := "Recommendations for specific types of Python projects"
  examples := []
  guidelines := ["Web/API: Use FastAPI, SQLAlchemy, Pydantic, and Alembic",
    "CLI: Use Click or Typer with Rich for terminal output",
    "Data Processing: Use pandas, numpy with proper error handling",
    "Libraries: Design clear public APIs with comprehensive docs"]


/-! ## Lookup API (`core/api.py`) -/

/-- The `_STANDARDS_MAP` dictionary of `core/api.py`, in declaration
order of its twelve keys. -/
def STANDARDS_MAP : List (String × StandardInfo) :=
  [("project_structure", PROJECT_STRUCTURE),
   ("development_tools", DEVELOPMENT_TOOLS),
   ("oop_principles", OOP_PRINCIPLES),
   ("design_patterns", DESIGN_PATTERNS),
   ("data_structures", DATA_STRUCTURES),
   ("modern_features", MODERN_FEATURES),
   ("functional_programming", FUNCTIONAL_PROGRAMMING),
   ("error_handling", ERROR_HANDLING),
   ("testing", TESTING),
   ("environment", ENVIRONMENT),
   ("ai_guidelines", AI_GUIDELINES),
   ("project_types", PROJECT_TYPES)]

/-- The closed set of category identifiers, in declaration order. -/
def categoryIds : List String :=
  STANDARDS_MAP.map Prod.fst

/-- Function `get_all_categories`: every `(category_id, title)` pair, in the
iteration (declaration) order of `_STANDARDS_MAP`. -/
def get_all_categories : List (String × String) :=
  STANDARDS_MAP.map (fun p => (p.1, p.2.title))

/-- Function `get_standard`: dictionary lookup, raising
`ValueError` with message `Unknown standard category: <category>` for a key
outside `_STANDARDS_MAP`. -/
def get_standard (category : String) : Except String StandardInfo :=
  match STANDARDS_MAP.find? (fun p => p.1 == category) with
  | some p => Except.ok p.2
  | none => Except.error ("Unknown standard category: " ++ category)

/-! ## Search (`core/api.py`, `search_standards`)

The source builds one `results` list by appending, in order: for each
category in declaration order, the title match, the description match,
the guideline matches in order, and for each example in order the
matches of its string-valued fields in mapping-iteration order.  The
loops below thread the `results` accumulator exactly as the source
does. -/

/-- Inner loop `for key, value in example.items()`: a field contributes
`(category, "example.<key>", value)` when it is string-valued and
contains the (lowered) query in its lowered text. -/
def fieldsLoop (qL : List Char) (cat : String) : ExampleRec → List SearchResult → List SearchResult
  | [], acc => acc
  | (k, Value.str s) :: rest, acc =>
      fieldsLoop qL cat rest
        (if infixOfB qL (lowerL s) then acc ++ [(cat, "example." ++ k, s)] else acc)
  | (_, Value.cmds _) :: rest, acc => fieldsLoop qL cat rest acc

/-- Loop `for example in data["examples"]`. -/
def examplesLoop (qL : List Char) (cat : String) : List ExampleRec → List SearchResult → List SearchResult
  | [], acc => acc
  | ex :: rest, acc => examplesLoop qL cat rest (fieldsLoop qL cat ex acc)

/-- Loop `for guideline in data["guidelines"]`. -/
def guidelinesLoop (qL : List Char) (cat : String) : List String → List SearchResult → List SearchResult
  | [], acc => acc
  | g :: rest, acc =>
      guidelinesLoop qL cat rest
        (if infixOfB qL (lowerL g) then acc ++ [(cat, "guideline", g)] else acc)

/-- Outer loop `for category, data in _STANDARDS_MAP.items()`. -/
def categoriesLoop (qL : List Char) : List (String × StandardInfo) → List SearchResult → List SearchResult
  | [], acc => acc
  | (cat, d) :: rest, acc =>
      let acc1 := if infixOfB qL (lowerL d.title) then acc ++ [(cat, "title", d.title)] else acc
      let acc2 :=
        if infixOfB qL (lowerL d.description) then acc1 ++ [(cat, "description", d.description)]
        else acc1
      let acc3 := guidelinesLoop qL cat d.guidelines acc2
      let acc4 := examplesLoop qL cat d.examples acc3
      categoriesLoop qL rest acc4

/-- Function `search_standards`: the query is lowered once (`query = query.lower()`)
and then scanned over the whole map. -/
def search_standards (query : String) : List SearchResult :=
  categoriesLoop (lowerL query) STANDARDS_MAP []

/-! ## Specification-side search

Definition `specSearch` restates the search contract in the words of the spec:
case-insensitive substring containment, results concatenated in category
declaration order and, within a category, title first, then description,
then guidelines in order, then examples in order crossed with the
iteration order of the field mapping of each example; no ranking, no
deduplication, no fuzziness. -/

/-- The matching relation of the spec: case-insensitive substring
containment of the query in the text. -/
def matchesCI (query text : String) : Prop :=
  lowerL query <:+: lowerL text

instance (query text : String) : Decidable (matchesCI query text) :=
  inferInstanceAs (Decidable (lowerL query <:+: lowerL text))

/-- Spec-side matches of one example record, in field-mapping iteration
order. -/
def specExampleResults (query : String) (cat : String) (ex : ExampleRec) : List SearchResult :=
  ex.filterMap fun kv =>
    match kv.2 with
    | Value.str s => if matchesCI query s then some (cat, "example." ++ kv.1, s) else none
    | Value.cmds _ => none

/-- Spec-side matches of one category: title, then description, then
guidelines in order, then examples in order. -/
def specCategoryResults (query : String) (cat : String) (d : StandardInfo) : List SearchResult :=
  (if matchesCI query d.title then [(cat, "title", d.title)] else [])
    ++ (if matchesCI query d.description then [(cat, "description", d.description)] else [])
    ++ d.guidelines.filterMap
        (fun g => if matchesCI query g then some (cat, "guideline", g) else none)
    ++ (d.examples.map (specExampleResults query cat)).flatten

/-- Spec-side search: categories in declaration order. -/
def specSearch (query : String) : List SearchResult :=
  (STANDARDS_MAP.map (fun p => specCategoryResults query p.1 p.2)).flatten

/-- Every text field the search scans, as a `(category, field, text)`
triple in scan order. -/
def scannedFields : List SearchResult :=
  (STANDARDS_MAP.map (fun p =>
    (p.1, "title", p.2.title)
      :: (p.1, "description", p.2.description)
      :: (p.2.guidelines.map (fun g => (p.1, "guideline", g))
          ++ (p.2.examples.map (fun ex => ex.filterMap fun kv =>
                match kv.2 with
                | Value.str s => some (p.1, "example." ++ kv.1, s)
                | Value.cmds _ => none)).flatten))).flatten

/-! ## Example retrieval (`ai.py`, `get_example`)

Python `str(example)` (the fallback when an example has neither a
`"code"` nor a `"good_example"` field) is the dictionary `repr`; the
functions below reproduce it for the value shapes occurring in the
tables. -/

/-- Dictionary lookup `example[k]` / `k in example` as an option
(first occurrence; keys are unique in the tables). -/
def exLookup (ex : ExampleRec) (k : String) : Option Value :=
  (ex.find? (fun kv => kv.1 == k)).map Prod.snd

/-- The single-quote character. -/
def squoteC : Char := Char.ofNat 39

/-- One character of Python `repr` of a string, given the chosen quote
character. -/
def pyReprChar (q c : Char) : String :=
  if c == '\\' then "\\\\"
  else if c == '\n' then "\\n"
  else if c == '\r' then "\\r"
  else if c == '\t' then "\\t"
  else if c == q then "\\" ++ String.singleton q
  else String.singleton c

/-- Python `repr` of a string: single-quoted unless the string holds a
single quote and no double quote (sufficient for the printable ASCII
content of the tables). -/
def pyReprStr (s : String) : String :=
  let q := if s.data.contains squoteC && !(s.data.contains '"') then '"' else squoteC
  String.singleton q ++ String.join (s.data.map (pyReprChar q)) ++ String.singleton q

/-- Python `repr` of a field value (a string or a nested command
dictionary). -/
def pyReprValue : Value → String
  | Value.str s => pyReprStr s
  | Value.cmds m =>
      "\x7b" ++ String.intercalate ", "
        (m.map (fun kv => pyReprStr kv.1 ++ ": " ++ pyReprStr kv.2)) ++ "\x7d"

/-- Python `str(example)` for an example record: the dictionary repr in
insertion order. -/
def pyReprExample (ex : ExampleRec) : String :=
  "\x7b" ++ String.intercalate ", "
    (ex.map (fun kv => pyReprStr kv.1 ++ ": " ++ pyReprValue kv.2)) ++ "\x7d"

/-- Python `str(value)` for a field value: a string is itself, a
dictionary prints as its repr. -/
def valueStr : Value → String
  | Value.str s => s
  | Value.cmds m => pyReprValue (Value.cmds m)

/-- The text the source extracts from one example: `"code"` stripped if
present, else `"good_example"` stripped, else `str(example)`. -/
def primaryText (ex : ExampleRec) : String :=
  match exLookup ex "code" with
  | some v => pyStrip (valueStr v)
  | none =>
    match exLookup ex "good_example" with
    | some v => pyStrip (valueStr v)
    | none => pyReprExample ex

/-- The `for example in standard["examples"]` scan of `get_example`
with a requested title.  (The source reads `example["title"]`, which
would raise `KeyError` on an example without a title; every example in
the tables has one, so a missing title is modelled as a non-match.) -/
def findExampleLoop (category t : String) : List ExampleRec → Except String String
  | [] => Except.error ("Example \x27" ++ t ++ "\x27 not found in category: " ++ category)
  | ex :: rest =>
      if exLookup ex "title" == some (Value.str t) then Except.ok (primaryText ex)
      else findExampleLoop category t rest

/-- Function `get_example` of `ai.py`.  Note the source guard `if example_title:`
is Python truthiness: `None` and the empty string both select the
first-example branch. -/
def get_example (category : String) (example_title : Option String) : Except String String :=
  match get_standard category with
  | Except.error e => Except.error e
  | Except.ok standard =>
    match standard.examples with
    | [] => Except.error ("No examples available for category: " ++ category)
    | ex1 :: rest =>
      match example_title with
      | some t =>
          if t == "" then Except.ok (primaryText ex1)
          else findExampleLoop category t (ex1 :: rest)
      | none => Except.ok (primaryText ex1)

/-! ## Suggestion heuristic (`ai.py`, `suggest_improvements`) -/

/-- The final loop of `suggest_improvements`: append up to two search
results whose content is shorter than 200 characters.  (Every search
result content in the model is a string, so the check
`isinstance(content, str)` test is always true.) -/
def tipsLoop : List SearchResult → List String → List String
  | [], acc => acc
  | r :: rest, acc =>
      tipsLoop rest (if r.2.2.length < 200 then acc ++ [r.2.2] else acc)

/-- Function `suggest_improvements`: six independent textual heuristics in fixed
order, then up to two short tips from `search_standards("best practice")`. -/
def suggest_improvements (code_snippet : String) : List String :=
  let suggestions : List String := []
  let suggestions :=
    if strIn "def " code_snippet && !(strIn ") ->" code_snippet) then
      suggestions ++ ["Add type hints to function return values and parameters"]
    else suggestions
  let suggestions :=
    if strIn "lambda" code_snippet && strIn "if" code_snippet && strIn "else" code_snippet then
      suggestions ++ ["Replace complex lambda functions with named functions for better readability"]
    else suggestions
  let suggestions :=
    if strIn "def __init__" code_snippet then
      if 3 ≤ ((pyLines code_snippet).filter (fun l => strIn "self." l && strIn " = " l)).length then
        suggestions ++ ["Consider using @dataclass to simplify this class definition"]
      else suggestions
    else suggestions
  let suggestions :=
    if strIn "def " code_snippet && strIn "[]" code_snippet && strIn " = []" code_snippet then
      suggestions ++ ["Avoid using mutable default arguments (lists, dicts, etc.)"]
    else suggestions
  let suggestions :=
    if strIn "open(" code_snippet && !(strIn "with open" code_snippet) then
      suggestions ++ ["Use context managers (with statement) for file operations"]
    else suggestions
  let suggestions :=
    if strIn "except:" code_snippet || strIn "except Exception:" code_snippet then
      suggestions ++ ["Use specific exceptions instead of catching all exceptions"]
    else suggestions
  let standards_results := search_standards "best practice"
  let suggestions :=
    if standards_results.isEmpty then suggestions
    else tipsLoop (standards_results.take 2) suggestions
  suggestions

/-- The value of `suggestions` in `suggest_improvements` after the six
pattern checks, before the final standards lookup (source lines
105–137): names the prefix after which the tips are appended. -/
def heuristicChain (code_snippet : String) : List String :=
  let suggestions : List String := []
  let suggestions :=
    if strIn "def " code_snippet && !(strIn ") ->" code_snippet) then
      suggestions ++ ["Add type hints to function return values and parameters"]
    else suggestions
  let suggestions :=
    if strIn "lambda" code_snippet && strIn "if" code_snippet && strIn "else" code_snippet then
      suggestions ++ ["Replace complex lambda functions with named functions for better readability"]
    else suggestions
  let suggestions :=
    if strIn "def __init__" code_snippet then
      if 3 ≤ ((pyLines code_snippet).filter (fun l => strIn "self." l && strIn " = " l)).length then
        suggestions ++ ["Consider using @dataclass to simplify this class definition"]
      else suggestions
    else suggestions
  let suggestions :=
    if strIn "def " code_snippet && strIn "[]" code_snippet && strIn " = []" code_snippet then
      suggestions ++ ["Avoid using mutable default arguments (lists, dicts, etc.)"]
    else suggestions
  let suggestions :=
    if strIn "open(" code_snippet && !(strIn "with open" code_snippet) then
      suggestions ++ ["Use context managers (with statement) for file operations"]
    else suggestions
  let suggestions :=
    if strIn "except:" code_snippet || strIn "except Exception:" code_snippet then
      suggestions ++ ["Use specific exceptions instead of catching all exceptions"]
    else suggestions
  suggestions

/-- The tips appended by `suggest_improvements` from
`search_standards("best practice")`: the first two results, kept when
shorter than 200 characters. -/
def bestPracticeTips : List String :=
  tipsLoop ((search_standards "best practice").take 2) []

/-! ## Project structure and response templater (`ai.py`) -/

/-- The hardcoded fallback layout of `get_project_structure`
(stripped, as in the source). -/
def fallbackLayout : String :=
  pyStrip "\nproject/\n├── src/\n│   └── package_name/\n│       ├── __init__.py\n│       ├── main.py\n├── tests/\n│   ├── __init__.py\n│   └── test_*.py\n├── pyproject.toml\n├── README.md\n└── .gitignore\n"

/-- The `for example in standard["examples"]` scan of
`get_project_structure`.  (On a match the source reads
`example["code"]`, which would raise `KeyError` were the field absent;
the matching example in the tables has it.) -/
def findLayoutLoop : List ExampleRec → Option String
  | [] => none
  | ex :: rest =>
      if (exLookup ex "title").isSome && exLookup ex "title" == some (Value.str "Standard project layout") then
        some (pyStrip (valueStr ((exLookup ex "code").getD (Value.str ""))))
      else findLayoutLoop rest

/-- Function `get_project_structure`: the `"Standard project layout"` example of
the `project_structure` category, else the hardcoded fallback.  (The
`Except.error` arm is unreachable: `"project_structure"` is a key of
the map; in the source the exception would propagate.) -/
def get_project_structure : String :=
  match get_standard "project_structure" with
  | Except.error _ => fallbackLayout
  | Except.ok standard =>
    match findLayoutLoop standard.examples with
    | some s => s
    | none => fallbackLayout

/-- Python `any(term in query_lower for term in terms)`. -/
def anyTermIn (terms : List String) (q : String) : Bool :=
  terms.any (fun t => strIn t q)

/-- Function `generate_standard_response`: first matching keyword bucket wins;
each bucket returns a canned markdown template, three of them
interpolating an example fetched with `get_example` (with the template
fallback on `ValueError`). -/
def generate_standard_response (query : String) : String :=
  let query_lower := lowerS query
  if anyTermIn ["structure", "layout", "organization"] query_lower then
    let structureStr := get_project_structure
    "\n## Recommended Project Structure\n\n```\n" ++ structureStr ++ "\n```\n\n**Key points:**\n- Use src-layout for better packaging\n- Keep tests separate from implementation\n- Use pyproject.toml for configuration\n- Group related functionality in modules\n"
  else if anyTermIn ["tools", "toolchain", "configuration", "setup"] query_lower then
    "\n## Recommended Toolchain\n\n- **Linter/Formatter:** Ruff\n- **Type Checking:** MyPy (--strict)\n- **Testing:** Pytest\n- **Project Management:** Hatch\n- **Python Version:** 3.11+\n\n**Common Commands:**\n- `hatch run test`: Run tests\n- `hatch run lint`: Run linting\n- `hatch run type`: Run type checking\n- `hatch run format`: Format code\n- `hatch run all`: Run all checks and tests\n"
  else if anyTermIn ["oop", "class", "object", "inheritance"] query_lower then
    match get_example "oop_principles" (some "Single Responsibility Principle (SRP)") with
    | Except.ok ex =>
        "\n## OOP Best Practices\n\n1. **Single Responsibility Principle (SRP)**: Each class should have one responsibility\n2. **Open/Closed Principle (OCP)**: Open for extension, closed for modification\n3. **Interface Segregation**: Prefer focused interfaces over general-purpose ones\n4. **Dependency Inversion**: Depend on abstractions, not concretions\n5. **Composition over Inheritance**: Prefer composition to inheritance when possible\n\n**Example - Single Responsibility Principle:**\n```python\n" ++ ex ++ "\n```\n"
    | Except.error _ =>
        "\n## OOP Best Practices\n\n1. **Single Responsibility Principle (SRP)**: Each class should have one responsibility\n2. **Open/Closed Principle (OCP)**: Open for extension, closed for modification\n3. **Interface Segregation**: Prefer focused interfaces over general-purpose ones\n4. **Dependency Inversion**: Depend on abstractions, not concretions\n5. **Composition over Inheritance**: Prefer composition to inheritance when possible\n"
  else if anyTermIn ["modern", "features", "dataclass", "typing"] query_lower then
    match get_example "modern_features" (some "Type Annotations and Generics") with
    | Except.ok ex =>
        "\n## Modern Python Features\n\n1. **Data Classes**: Use for simple data containers\n2. **Type Annotations**: Include type hints with PEP 695 generics\n3. **Pattern Matching**: Use for complex conditional logic\n4. **Async/Await**: For asynchronous programming\n5. **Context Managers**: For resource management\n\n**Example - Type Annotations and Generics:**\n```python\n" ++ ex ++ "\n```\n"
    | Except.error _ =>
        "\n## Modern Python Features\n\n1. **Data Classes**: Use for simple data containers\n2. **Type Annotations**: Include type hints with PEP 695 generics\n3. **Pattern Matching**: Use for complex conditional logic\n4. **Async/Await**: For asynchronous programming\n5. **Context Managers**: For resource management\n"
  else if anyTermIn ["test", "testing", "pytest"] query_lower then
    "\n## Testing Best Practices\n\n1. **Unit Tests for All Public Methods**: Ensure all public functionality is tested\n2. **Mock External Dependencies**: Use unittest.mock or pytest-mock\n3. **Property-Based Testing**: Consider hypothesis for complex logic\n4. **Type Checking in CI/CD**: Run mypy as part of CI pipeline\n5. **Test Fixtures**: Use pytest fixtures for test setup and reuse\n\n**Example - Basic Unit Test:**\n```python\ndef test_user_creation():\n    user = User(name=\"Test\", email=\"test@example.com\")\n    assert user.name == \"Test\"\n    assert user.email == \"test@example.com\"\n    assert user.is_active is True  # Default value\n```\n"
  else if anyTermIn ["functional", "lambda", "comprehension"] query_lower then
    match get_example "functional_programming" (some "List Comprehensions") with
    | Except.ok ex =>
        "\n## Functional Programming in Python\n\n1. **List Comprehensions**: For transforming lists\n2. **Generator Expressions**: For memory-efficient sequence processing\n3. **Lambda Functions**: For simple operations only\n4. **Higher-Order Functions**: Functions that take functions as parameters\n5. **Pure Functions**: Functions without side effects\n\n**Example - List Comprehensions:**\n```python\n" ++ ex ++ "\n```\n"
    | Except.error _ =>
        "\n## Functional Programming in Python\n\n1. **List Comprehensions**: For transforming lists\n2. **Generator Expressions**: For memory-efficient sequence processing\n3. **Lambda Functions**: For simple operations only\n4. **Higher-Order Functions**: Functions that take functions as parameters\n5. **Pure Functions**: Functions without side effects\n"
  else if anyTermIn ["error", "exception", "handling"] query_lower then
    "\n## Error Handling Best Practices\n\n1. **Use Specific Exceptions**: Avoid catching general Exception\n2. **Create Custom Exceptions**: For domain-specific errors\n3. **Context Managers**: Use for resource management\n4. **Document Error Conditions**: In function docstrings\n5. **Include Context in Messages**: Make error messages informative\n\n**Example - Custom Exception Hierarchy:**\n```python\nclass DomainError(Exception):\n    \x27\x27\x27Base exception for all domain errors.\x27\x27\x27\n    \nclass UserNotFoundError(DomainError):\n    \x27\x27\x27Raised when a user cannot be found.\x27\x27\x27\n    def __init__(self, user_id: str) -> None:\n        self.user_id = user_id\n        super().__init__(f\"User not found: \x7buser_id\x7d\")\n```\n"
  else
    "\n## Python Coding Standards - Quick Reference\n\n1. **Project Structure**: Use src-layout with pyproject.toml\n2. **Tools**: Ruff (linting/formatting), MyPy (type checking), Pytest (testing), Hatch (pkg mgmt)\n3. **Type Hints**: Always use type annotations with PEP 695 generics\n4. **Python Version**: Use Python 3.11+ for new projects\n5. **OOP Principles**: Follow SOLID principles, prefer composition over inheritance\n6. **Functional Features**: Use list comprehensions, generators, and simple lambdas\n7. **Modern Features**: Leverage dataclasses, pattern matching, async/await\n8. **Error Handling**: Use specific exceptions and context managers\n9. **Testing**: Write unit tests for all public methods\n\nFor more details, use the `pystandards` CLI tool or import the `python_ai_coding_standards` package.\n"

/-- The text of a markdown heading line: a line starting with `#`,
with the leading hashes and following spaces removed. -/
def headingText (line : String) : Option String :=
  match line.data with
  | [] => none
  | c :: _ =>
      if c == '#' then
        some ⟨(line.data.dropWhile (fun d => d == '#')).dropWhile (fun d => d == ' ')⟩
      else none

/-! ## JSON export (`cli.py`, `export_json`) -/

/-- The `"categories"` field of the export:
`dict(get_all_categories())`, a dictionary built in list order (a later
duplicate key would overwrite in place; the twelve keys are distinct). -/
def pyDictInsert (m : List (String × String)) (kv : String × String) : List (String × String) :=
  if m.any (fun p => p.1 == kv.1) then
    m.map (fun p => if p.1 == kv.1 then (p.1, kv.2) else p)
  else m ++ [kv]

/-- A Python dictionary from a list of pairs, as an insertion-ordered
association list. -/
def pyDict (l : List (String × String)) : List (String × String) :=
  l.foldl pyDictInsert []

/-- The category-to-title mapping written by `export_json`. -/
def export_categories : List (String × String) :=
  pyDict get_all_categories

/-- Modelled from the spec: `export_json` writes the document with
`json.dump(data, f, indent=2)` and the round trip reads it back with
`json.load`; the Python `json` module is outside this repository.  The
encoder below renders a flat string-to-string object the way
`json.dump(…, indent=2)` does, for strings containing no characters
that need JSON escaping (true of every category id and title). -/
def encodeObj (m : List (String × String)) : String :=
  match m with
  | [] => "\x7b\x7d"
  | _ =>
      "\x7b\n"
        ++ String.intercalate ",\n"
            (m.map (fun kv => "  \"" ++ kv.1 ++ "\": \"" ++ kv.2 ++ "\""))
        ++ "\n\x7d"

/-- JSON whitespace. -/
def isJsonWs (c : Char) : Bool :=
  c == ' ' || c == '\n' || c == '\t' || c == '\r'

/-- Scan to the closing quote of a JSON string (no escapes needed for
the exported content). -/
def parseJsonStrAux : List Char → List Char → Option (String × List Char)
  | [], _ => none
  | c :: rest, acc =>
      if c == '"' then some (⟨acc.reverse⟩, rest) else parseJsonStrAux rest (c :: acc)

/-- Parse one JSON string literal. -/
def parseJsonStr : List Char → Option (String × List Char)
  | '"' :: rest => parseJsonStrAux rest []
  | _ => none

/-- The opening brace character. -/
def lbraceC : Char := Char.ofNat 123

/-- The closing brace character. -/
def rbraceC : Char := Char.ofNat 125

/-- Modelled from the spec: `json.load` on a flat object body — parse
`"key": "value"` members separated by commas up to the closing brace
(fuelled recursion; the fuel is the input length, which bounds the
member count). -/
def parseMembers : Nat → List Char → Option (List (String × String))
  | 0, _ => none
  | Nat.succ fuel, l =>
    match parseJsonStr (l.dropWhile isJsonWs) with
    | none => none
    | some (k, r1) =>
      match r1.dropWhile isJsonWs with
      | ':' :: r2 =>
        match parseJsonStr (r2.dropWhile isJsonWs) with
        | none => none
        | some (v, r3) =>
          match r3.dropWhile isJsonWs with
          | c :: r4 =>
              if c == ',' then (parseMembers fuel r4).map (fun ps => (k, v) :: ps)
              else if c == rbraceC && (r4.dropWhile isJsonWs).isEmpty then some [(k, v)]
              else none
          | [] => none
      | _ => none

/-- Modelled from the spec: `json.load` restricted to a flat
string-to-string object. -/
def decodeObj (s : String) : Option (List (String × String)) :=
  match s.data.dropWhile isJsonWs with
  | [] => none
  | c :: rest =>
    if c == lbraceC then
      match rest.dropWhile isJsonWs with
      | [] => none
      | d :: r2 =>
          if d == rbraceC then (if (r2.dropWhile isJsonWs).isEmpty then some [] else none)
          else parseMembers (rest.length + 1) rest
    else none

/-- Whether an `Except` result is a success (`Except.isOk`). -/
def isOkB : Except String String → Bool
  | Except.ok _ => true
  | Except.error _ => false

/-- A snippet with a mutable *dict* default argument, a bare except
clause, and a function definition with no return-type annotation.  None
of the textual patterns of the mutable-default heuristic (`" = []"`,
`"[]"`) occur in it. -/
def dictDefaultSnippet : String :=
  "def f(x=\x7b\x7d):\n    try:\n        g()\n    except:\n        pass\n"

/-- A snippet with a mutable *list* default argument written `" = []"`,
a bare except clause, and a function definition with no return-type
annotation, matching all three textual triggers. -/
def listDefaultSnippet : String :=
  "def handler(items = []):\n    try:\n        items.append(1)\n    except:\n        return items\n"


/-! ## Helper lemmas -/

theorem prefixOfB_iff (n h : List Char) : prefixOfB n h = true ↔ n <+: h := by
  induction n generalizing h with
  | nil => simp [prefixOfB]
  | cons a as ih =>
    cases h with
    | nil => simp [prefixOfB]
    | cons b bs => simp [prefixOfB, List.cons_prefix_cons, ih, beq_iff_eq]

theorem infixOfB_iff (n h : List Char) : infixOfB n h = true ↔ n <:+: h := by
  induction h with
  | nil => simp [infixOfB, prefixOfB_iff, List.prefix_nil, List.infix_nil]
  | cons c cs ih =>
    simp [infixOfB, prefixOfB_iff, ih, List.infix_cons_iff]

theorem infixOfB_eq_decide (n h : List Char) : infixOfB n h = decide (n <:+: h) := by
  by_cases hx : n <:+: h
  · simp [hx, (infixOfB_iff n h).mpr hx]
  · have : infixOfB n h ≠ true := fun hb => hx ((infixOfB_iff n h).mp hb)
    simp [hx, Bool.eq_false_iff.mpr this]

theorem fieldsLoop_eq (q cat : String) (ex : ExampleRec) (acc : List SearchResult) :
    fieldsLoop (lowerL q) cat ex acc = acc ++ specExampleResults q cat ex := by
  induction ex generalizing acc with
  | nil => simp [fieldsLoop, specExampleResults]
  | cons kv rest ih =>
    obtain ⟨k, v⟩ := kv
    cases v with
    | str s =>
      by_cases hm : matchesCI q s
      · simp [fieldsLoop, specExampleResults, infixOfB_eq_decide, matchesCI, hm, ih,
          List.filterMap_cons]
        simp [matchesCI] at hm
        simp [hm]
      · simp [fieldsLoop, specExampleResults, infixOfB_eq_decide, matchesCI, hm, ih,
          List.filterMap_cons]
        simp [matchesCI] at hm
        simp [hm]
    | cmds m => simp [fieldsLoop, specExampleResults, ih, List.filterMap_cons]

theorem guidelinesLoop_eq (q cat : String) (gs : List String) (acc : List SearchResult) :
    guidelinesLoop (lowerL q) cat gs acc
      = acc ++ gs.filterMap (fun g => if matchesCI q g then some (cat, "guideline", g) else none) := by
  induction gs generalizing acc with
  | nil => simp [guidelinesLoop]
  | cons g rest ih =>
    by_cases hm : matchesCI q g
    · simp [guidelinesLoop, infixOfB_eq_decide, matchesCI, hm, ih, List.filterMap_cons]
      simp [matchesCI] at hm
      simp [hm]
    · simp [guidelinesLoop, infixOfB_eq_decide, matchesCI, hm, ih, List.filterMap_cons]
      simp [matchesCI] at hm
      simp [hm]

theorem examplesLoop_eq (q cat : String) (exs : List ExampleRec) (acc : List SearchResult) :
    examplesLoop (lowerL q) cat exs acc
      = acc ++ (exs.map (specExampleResults q cat)).flatten := by
  induction exs generalizing acc with
  | nil => simp [examplesLoop]
  | cons ex rest ih => simp [examplesLoop, fieldsLoop_eq, ih]

theorem categoriesLoop_eq (q : String) (cats : List (String × StandardInfo))
    (acc : List SearchResult) :
    categoriesLoop (lowerL q) cats acc
      = acc ++ (cats.map (fun p => specCategoryResults q p.1 p.2)).flatten := by
  induction cats generalizing acc with
  | nil => simp [categoriesLoop]
  | cons p rest ih =>
    obtain ⟨cat, d⟩ := p
    simp only [categoriesLoop, guidelinesLoop_eq, examplesLoop_eq, ih, specCategoryResults,
      List.map_cons, List.flatten_cons, infixOfB_eq_decide]
    by_cases h1 : matchesCI q d.title <;> by_cases h2 : matchesCI q d.description <;>
      · simp only [matchesCI] at h1 h2
        simp [matchesCI, h1, h2]

theorem search_standards_eq_spec (q : String) : search_standards q = specSearch q := by
  simpa [search_standards, specSearch] using categoriesLoop_eq q STANDARDS_MAP []

theorem mem_specSearch_matches {q : String} {r : SearchResult} (hr : r ∈ specSearch q) :
    matchesCI q r.2.2 := by
  simp only [specSearch, List.mem_flatten, List.mem_map] at hr
  obtain ⟨l, ⟨p, hp, rfl⟩, hrl⟩ := hr
  simp [specCategoryResults, specExampleResults] at hrl
  rcases hrl with ⟨hm, rfl⟩ | ⟨hm, rfl⟩ | ⟨g, _, hm, rfl⟩ | ⟨ex, _, k, v, _, hkv⟩
  · exact hm
  · exact hm
  · exact hm
  · cases v with
    | str s =>
      dsimp only at hkv
      by_cases hm : matchesCI q s
      · rw [if_pos hm] at hkv
        obtain rfl := Option.some.inj hkv
        exact hm
      · rw [if_neg hm] at hkv
        exact absurd hkv (by simp)
    | cmds m =>
      dsimp only at hkv
      exact absurd hkv (by simp)

theorem findExampleLoop_not_found (category t : String) (l : List ExampleRec)
    (h : ∀ ex ∈ l, exLookup ex "title" ≠ some (Value.str t)) :
    findExampleLoop category t l
      = Except.error ("Example \x27" ++ t ++ "\x27 not found in category: " ++ category) := by
  induction l with
  | nil => rfl
  | cons ex rest ih =>
    have hne : (exLookup ex "title" == some (Value.str t)) = false := by
      simp [h ex (List.mem_cons_self ex rest)]
    simp only [findExampleLoop, hne, Bool.false_eq_true, if_false]
    exact ih fun e he => h e (List.mem_cons_of_mem ex he)

theorem tipsLoop_append (l : List SearchResult) (acc : List String) :
    tipsLoop l acc = acc ++ tipsLoop l [] := by
  induction l generalizing acc with
  | nil => simp [tipsLoop]
  | cons r rest ih =>
    by_cases hc : r.2.2.length < 200
    · rw [tipsLoop, if_pos hc, ih, tipsLoop, if_pos hc, ih ([] ++ [r.2.2])]
      simp
    · rw [tipsLoop, if_neg hc, tipsLoop, if_neg hc]
      exact ih acc

set_option maxRecDepth 100000 in
theorem bestPractice_search_not_empty :
    (search_standards "best practice").isEmpty = false := by decide

theorem suggest_improvements_decomp (s : String) :
    suggest_improvements s = heuristicChain s ++ bestPracticeTips := by
  show (if (search_standards "best practice").isEmpty then heuristicChain s
        else tipsLoop ((search_standards "best practice").take 2) (heuristicChain s))
      = heuristicChain s ++ bestPracticeTips
  rw [bestPractice_search_not_empty]
  simp only [Bool.false_eq_true, if_false]
  exact tipsLoop_append _ _

/-! ## Claims -/

/-- C1: for every string id outside the fixed closed set of twelve
category identifiers, `get_standard id` fails with the not-found
`ValueError`, carrying the descriptive message
`Unknown standard category: <id>`, rather than returning any data. -/
theorem getStandard_unknown_id_notFound (cat : String) (h : cat ∉ categoryIds) :
    categoryIds.length = 12
    ∧ get_standard cat = Except.error ("Unknown standard category: " ++ cat) := by
  refine ⟨by decide, ?_⟩
  have hfind : STANDARDS_MAP.find? (fun p => p.1 == cat) = none := by
    rw [List.find?_eq_none]
    intro x hx hbeq
    apply h
    have hx1 : x.1 = cat := by simpa using hbeq
    have hm : x.1 ∈ STANDARDS_MAP.map Prod.fst := List.mem_map_of_mem Prod.fst hx
    rw [hx1] at hm
    exact hm
  unfold get_standard
  rw [hfind]

/-- C1 witness: the concrete unknown id `no_such_category`. -/
theorem getStandard_unknown_id_notFound_witness :
    categoryIds.length = 12
    ∧ get_standard "no_such_category"
        = Except.error ("Unknown standard category: " ++ "no_such_category") :=
  getStandard_unknown_id_notFound "no_such_category" (by decide)

/-- C2: for every query string, `search_standards` returns exactly the
results of the spec-side search `specSearch`: categories in declaration
order; within a category title match first, then description match,
then guideline matches in order, then example matches in example order
crossed with the iteration order of the field mapping of each example;
matching is case-insensitive substring containment (`matchesCI`), with
no ranking, no deduplication and no fuzziness. -/
theorem search_standards_spec_order (q : String) : search_standards q = specSearch q :=
  search_standards_eq_spec q

set_option maxRecDepth 100000 in
/-- C6: for the empty query, `search_standards` returns a match for
exactly the scanned text fields that are non-empty — and every scanned
text field of the store is non-empty. -/
theorem search_empty_query_nonempty_fields :
    search_standards "" = scannedFields.filter (fun r => !(r.2.2 == ""))
    ∧ scannedFields.all (fun r => !(r.2.2 == "")) = true :=
  ⟨by decide, by decide⟩

set_option maxRecDepth 100000 in
/-- C7: `search_standards "python"` returns at least one result, and
for every query every returned `(category, field, text)` triple has
`text` containing the query case-insensitively. -/
theorem search_python_and_containment :
    search_standards "python" ≠ []
    ∧ ∀ (q : String) (r : SearchResult), r ∈ search_standards q → matchesCI q r.2.2 := by
  refine ⟨by decide, ?_⟩
  intro q r hr
  rw [search_standards_eq_spec] at hr
  exact mem_specSearch_matches hr

set_option maxRecDepth 100000 in
/-- C7 witness: a concrete result of `search_standards "python"` and its
containment property. -/
theorem search_python_and_containment_witness :
    ("project_structure", "description", "Recommended src-layout structure for Python projects")
      ∈ search_standards "python"
    ∧ matchesCI "python" "Recommended src-layout structure for Python projects" := by
  have hmem : ("project_structure", "description",
      "Recommended src-layout structure for Python projects") ∈ search_standards "python" := by
    decide
  exact ⟨hmem, search_python_and_containment.2 "python" _ hmem⟩

/-- C8: for every id in the fixed category set, `get_standard` returns a
record with non-empty title, non-empty description and a non-empty
guideline list. -/
theorem getStandard_valid_nonempty :
    ∀ cat ∈ categoryIds, ∃ std, get_standard cat = Except.ok std
      ∧ std.title ≠ "" ∧ std.description ≠ "" ∧ std.guidelines ≠ [] := by
  intro cat hcat
  fin_cases hcat <;> exact ⟨_, rfl, by decide, by decide, by decide⟩

/-- C8 witness: the concrete id `project_structure`. -/
theorem getStandard_valid_nonempty_witness :
    ∃ std, get_standard "project_structure" = Except.ok std
      ∧ std.title ≠ "" ∧ std.description ≠ "" ∧ std.guidelines ≠ [] :=
  getStandard_valid_nonempty "project_structure" (by decide)

/-- C3 counterexample: `get_example` called on `project_structure` with
the *given* title `""` does not fail with not-found, although no example
of the category has title `""` — the source guard `if example_title:`
treats the given empty title like an absent one and returns the first
text of that example. -/
theorem getExample_empty_title_cex :
    (PROJECT_STRUCTURE.examples.all
      (fun ex => !(exLookup ex "title" == some (Value.str "")))) = true
    ∧ isOkB (get_example "project_structure" (some "")) = true :=
  ⟨by decide, by decide⟩

/-- C3 (amended): for a category of the store, `get_example` fails with
the no-examples not-found error for every title argument when the
category has zero examples; when a *non-empty* title is given and no
example title matches it (and examples exist), it fails with the
example-not-found error; when the title is absent *or empty*, it
returns the primary text of the first example (`primaryText`: the `"code"`
field stripped, else the `"good_example"` field stripped, else the
stringified record). -/
theorem getExample_spec (cat : String) (std : StandardInfo)
    (hstd : get_standard cat = Except.ok std) :
    (std.examples = [] →
        ∀ t?, get_example cat t?
          = Except.error ("No examples available for category: " ++ cat))
    ∧ (∀ t, t ≠ "" → std.examples ≠ [] →
        (∀ ex ∈ std.examples, exLookup ex "title" ≠ some (Value.str t)) →
        get_example cat (some t)
          = Except.error ("Example \x27" ++ t ++ "\x27 not found in category: " ++ cat))
    ∧ (∀ ex1 rest, std.examples = ex1 :: rest →
        get_example cat none = Except.ok (primaryText ex1)
        ∧ get_example cat (some "") = Except.ok (primaryText ex1)) := by
  refine ⟨?_, ?_, ?_⟩
  · intro he t?
    simp [get_example, hstd, he]
  · intro t ht hne hnomatch
    have hbeq : (t == "") = false := by simp [ht]
    obtain ⟨ex1, rest, hex⟩ : ∃ a l, std.examples = a :: l := by
      cases hE : std.examples with
      | nil => exact absurd hE hne
      | cons a l => exact ⟨a, l, rfl⟩
    simp only [get_example, hstd, hex, hbeq, Bool.false_eq_true, if_false]
    exact findExampleLoop_not_found cat t _ (fun e he => hnomatch e (hex ▸ he))
  · intro ex1 rest hex
    constructor <;> simp [get_example, hstd, hex]

/-- C3 witness: concrete instances — a missing title in
`project_structure` and the example-free category `environment`. -/
theorem getExample_spec_witness :
    get_example "project_structure" (some "Nope")
      = Except.error ("Example \x27" ++ "Nope" ++ "\x27 not found in category: " ++ "project_structure")
    ∧ get_example "environment" none
      = Except.error ("No examples available for category: " ++ "environment") :=
  ⟨(getExample_spec "project_structure" PROJECT_STRUCTURE rfl).2.1 "Nope"
      (by decide) (by decide) (by decide),
   (getExample_spec "environment" ENVIRONMENT rfl).1 rfl none⟩

set_option maxRecDepth 100000 in
/-- C4 counterexample: `dictDefaultSnippet` holds a mutable dict default
argument (parameter x defaulted to an empty dict literal), a bare except clause and a function definition without a
return-type annotation, yet `suggest_improvements` emits no
mutable-default suggestion for it — the heuristic looks only for the
textual patterns `"[]"` and `" = []"`. -/
theorem suggest_mutable_default_missed_cex :
    strIn "def " dictDefaultSnippet = true
    ∧ strIn ") ->" dictDefaultSnippet = false
    ∧ strIn "except:" dictDefaultSnippet = true
    ∧ strIn "x=\x7b\x7d" dictDefaultSnippet = true
    ∧ "Avoid using mutable default arguments (lists, dicts, etc.)"
        ∉ suggest_improvements dictDefaultSnippet :=
  ⟨by decide, by decide, by decide, by decide, by decide⟩

/-- C4 (amended): for every snippet that contains `"def "` and not
`") ->"`, contains both `"[]"` and `" = []"`, and contains `"except:"`
or `"except Exception:"` (the textual triggers of the three
heuristics), `suggest_improvements` returns at least three distinct
suggestions, including the type-hint, mutable-default and
specific-exception ones. -/
theorem suggest_improvements_textual_triggers (s : String)
    (h1 : strIn "def " s = true) (h2 : strIn ") ->" s = false)
    (h3 : strIn "[]" s = true) (h4 : strIn " = []" s = true)
    (h5 : strIn "except:" s = true ∨ strIn "except Exception:" s = true) :
    "Add type hints to function return values and parameters" ∈ suggest_improvements s
    ∧ "Avoid using mutable default arguments (lists, dicts, etc.)" ∈ suggest_improvements s
    ∧ "Use specific exceptions instead of catching all exceptions" ∈ suggest_improvements s
    ∧ 3 ≤ (suggest_improvements s).toFinset.card := by
  have hc6 : (strIn "except:" s || strIn "except Exception:" s) = true := by
    rcases h5 with h5 | h5 <;> simp [h5]
  have hmem1 : "Add type hints to function return values and parameters" ∈ heuristicChain s := by
    simp [heuristicChain, h1, h2, h3, h4, hc6]
    try (split_ifs <;> simp)
  have hmem2 : "Avoid using mutable default arguments (lists, dicts, etc.)"
      ∈ heuristicChain s := by
    simp [heuristicChain, h1, h2, h3, h4, hc6]
    try (split_ifs <;> simp)
  have hmem3 : "Use specific exceptions instead of catching all exceptions"
      ∈ heuristicChain s := by
    simp [heuristicChain, h1, h2, h3, h4, hc6]
  have hm1 : "Add type hints to function return values and parameters"
      ∈ suggest_improvements s := by
    rw [suggest_improvements_decomp]
    exact List.mem_append_left _ hmem1
  have hm2 : "Avoid using mutable default arguments (lists, dicts, etc.)"
      ∈ suggest_improvements s := by
    rw [suggest_improvements_decomp]
    exact List.mem_append_left _ hmem2
  have hm3 : "Use specific exceptions instead of catching all exceptions"
      ∈ suggest_improvements s := by
    rw [suggest_improvements_decomp]
    exact List.mem_append_left _ hmem3
  refine ⟨hm1, hm2, hm3, ?_⟩
  have hsub : ({"Add type hints to function return values and parameters",
      "Avoid using mutable default arguments (lists, dicts, etc.)",
      "Use specific exceptions instead of catching all exceptions"} : Finset String)
      ⊆ (suggest_improvements s).toFinset := by
    intro x hx
    simp only [Finset.mem_insert, Finset.mem_singleton] at hx
    rcases hx with rfl | rfl | rfl
    · exact List.mem_toFinset.mpr hm1
    · exact List.mem_toFinset.mpr hm2
    · exact List.mem_toFinset.mpr hm3
  calc (3 : ℕ)
      = ({"Add type hints to function return values and parameters",
          "Avoid using mutable default arguments (lists, dicts, etc.)",
          "Use specific exceptions instead of catching all exceptions"} : Finset String).card := by
        decide
    _ ≤ (suggest_improvements s).toFinset.card := Finset.card_le_card hsub

/-- C4 witness: the concrete snippet `listDefaultSnippet`, which matches
all three textual triggers. -/
theorem suggest_improvements_textual_triggers_witness :
    "Add type hints to function return values and parameters"
      ∈ suggest_improvements listDefaultSnippet
    ∧ "Avoid using mutable default arguments (lists, dicts, etc.)"
      ∈ suggest_improvements listDefaultSnippet
    ∧ "Use specific exceptions instead of catching all exceptions"
      ∈ suggest_improvements listDefaultSnippet
    ∧ 3 ≤ (suggest_improvements listDefaultSnippet).toFinset.card :=
  suggest_improvements_textual_triggers listDefaultSnippet
    (by decide) (by decide) (by decide) (by decide) (Or.inl (by decide))

set_option maxRecDepth 100000 in
/-- C5 counterexample: no line of
`generate_standard_response "project structure"` is a markdown heading
whose text is literally `Project Structure` — the only heading of the
response reads `Recommended Project Structure`. -/
theorem response_no_literal_heading_cex :
    ((pyLines (generate_standard_response "project structure")).all
      (fun l => !(headingText l == some "Project Structure"))) = true := by
  decide

set_option maxRecDepth 100000 in
/-- C5 (amended): `generate_standard_response "project structure"`
contains a markdown heading whose text contains `Project Structure`
(exact case) and contains the phrase `src-layout`. -/
theorem response_heading_and_srclayout :
    (∃ l ∈ pyLines (generate_standard_response "project structure"),
        ∃ t, headingText l = some t ∧ strIn "Project Structure" t = true)
    ∧ strIn "src-layout" (generate_standard_response "project structure") = true := by
  refine ⟨⟨"## Recommended Project Structure", by decide,
    "Recommended Project Structure", by decide, by decide⟩, by decide⟩

set_option maxRecDepth 100000 in
/-- C9: the category-to-title mapping written to the `categories` field
of the JSON export, decoded back, equals the mapping returned by
`get_all_categories`, whose key order is the declaration order of the
fixed category set. -/
theorem export_categories_roundtrip :
    decodeObj (encodeObj export_categories) = some export_categories
    ∧ export_categories = get_all_categories
    ∧ get_all_categories.map Prod.fst = categoryIds
    ∧ categoryIds
        = ["project_structure", "development_tools", "oop_principles", "design_patterns",
           "data_structures", "modern_features", "functional_programming", "error_handling",
           "testing", "environment", "ai_guidelines", "project_types"] :=
  ⟨by decide, by decide, by decide, by decide⟩

set_option maxRecDepth 100000 in
/-- C10: for every snippet — also one triggering none of the six
heuristics — `suggest_improvements` appends after the heuristic
suggestions the tips `bestPracticeTips`: the contents, shorter than 200
characters, of the first two results of
`search_standards "best practice"`; over the fixed store these are the
two description strings below, so the returned list is never empty. -/
theorem suggest_improvements_appends_tips (snippet : String) :
    (∃ pre, suggest_improvements snippet = pre ++ bestPracticeTips)
    ∧ bestPracticeTips
        = ["Best practices for OOP in Python",
           "Best practices for handling errors and resources"]
    ∧ suggest_improvements snippet ≠ [] := by
  have htips : bestPracticeTips
      = ["Best practices for OOP in Python",
         "Best practices for handling errors and resources"] := by decide
  refine ⟨⟨heuristicChain snippet, suggest_improvements_decomp snippet⟩, htips, ?_⟩
  rw [suggest_improvements_decomp, htips]
  simp
